import Mathlib

/-!
# FacettedSearchFilterDropdown

A shallow embedding of `mainapp/assets/js/FacettedSearchFilterDropdown.js`.

The widget's fields and the part of the document it reads and writes are gathered in one
record, `Widget`.  A method of the class becomes a function from `Widget` to
`Except Widget Widget`: `.ok s` when the call returns and leaves state `s`, `.error s` when it
throws and leaves state `s`.

The class runs on jQuery and list.js, which are not part of the source file.  What the
embedding fixes about them, and what it leaves open in the parameter `Host`:

* the selector text `"[data-id=" + v + "]"`
  - selects the rows whose `data-id` attribute equals `v` when `v` is made of letters,
    digits, `_` and `-` only (`plainId`);
  - selects the rows whose `data-id` attribute equals `v` without the spaces around it
    when that is plain (`selectorTarget`);
  - is rejected with a syntax error when `v` is empty, or has a dot and otherwise only
    letters, digits, `_`, `-` (`rejected`);
  - for any other `v` does what the host says (`Host.lookupOther`, `Host.findOther`);
* `$input.val($item.data("id"))` stores a plain `data-id` text as it is, except the text
  `null`, which `data` turns into `null` and `val` into the empty value; what is stored for
  any other text (one in brackets is read as JSON) is what the host says (`Host.dataValue`);
* the order in which list.js leaves the rows when it sorts them is `Host.sortRows`;
  `Widget.items` lists the rows in document order.

Further conventions:

* `$items` and the `.filter-item` rows below `#filter-<key>-list` are the same rows, and
  `#filter-<key>-list` and `#<key>Button` are elements of the page;
* `.show()` / `.hide()` set a visibility flag, `attr("hidden", ...)` / `removeAttr("hidden")`
  set a row's `hidden` flag, `prop("disabled", b)` sets the button's flag;
* a bucket count is a non-negative integer below `2 ^ 53`, the range in which a number is
  printed digit by digit when it is concatenated to a string;
* `.trigger("change")` is recorded by counting the notifications sent.
-/

namespace FacettedSearchFilterDropdown

/-- One `.filter-item` row: its `data-id`, the text of `.name`, the `hidden` attribute and the
text of `.facet-item-count`. -/
structure Row where
  id : String
  name : String
  hidden : Bool
  count : String
  deriving DecidableEq

/-- The widget together with the document state it owns. -/
structure Widget where
  /-- Field `this.key`, read from `data-filter-key`. -/
  key : String
  /-- Value of the hidden input, as `this.$input.val()` reads it. -/
  input : String
  /-- The rows `this.$items`, in document order. -/
  items : List Row
  /-- Whether `.nothing-selected` is displayed. -/
  nothingSelectedVisible : Bool
  /-- Whether `.selection` is displayed. -/
  selectionVisible : Bool
  /-- Text of `.selection`. -/
  selectionText : String
  /-- Whether `.remove-filter` is displayed. -/
  removeFilterVisible : Bool
  /-- The `disabled` property of `#<key>Button`. -/
  buttonDisabled : Bool
  /-- Number of `change` events triggered on the hidden input so far. -/
  changeEvents : Nat
  deriving DecidableEq

/-- A bucket count `bucket_entry[1]`: an integer from 0 to `2 ^ 53 - 1`. -/
abbrev Count := Fin 9007199254740992

/-- One entry of a facet's bucket list: `bucket_entry[0]` and `bucket_entry[1]`. -/
abbrev BucketEntry := String × Count

/-- The argument of `update`: `data['facets'][k]` is `data.facets k`, and `none` stands for
`undefined`. -/
structure Payload where
  facets : String → Option (List BucketEntry)

/-- What the libraries under the class do where this embedding does not fix it. -/
structure Host where
  /-- Value the hidden input holds after `$input.val($item.data("id"))` when the `data-id`
  text is not plain. -/
  dataValue : String → String
  /-- Order of the rows in the document after `filterlist.sort('name', ...)`. -/
  sortRows : List Row → List Row
  /-- Value of `$items.filter("[data-id=" + v + "]").find(".name").text()` for a `v` on
  which the embedding fixes nothing; `none` when the selector text is rejected. -/
  lookupOther : String → List Row → Option String
  /-- Rows reached by `$filter_list.find("[data-id=" + v + "]")` for a `v` on which the
  embedding fixes nothing; `none` when the selector text is rejected.  For the row at position
  `i` the first flag says that its `.facet-item-count` lies below a selected element, the
  second that the row itself is selected. -/
  findOther : String → List Row → Option (Nat → Bool × Bool)

/-- Truthiness of a string value in a condition: only the empty string is falsy. -/
def truthy (s : String) : Bool := !(s == "")

/-- Characters of an unquoted attribute value that select by equality: letters, digits,
`_` and `-`. -/
def plainChar (c : Char) : Bool :=
  c.isAlphanum || c == '_' || c == '-'

/-- A value made of plain characters only, and of at least one. -/
def plainId (v : String) : Bool :=
  !(v == "") && v.toList.all plainChar

/-- The value without the spaces at its two ends. -/
def stripSpaces (v : String) : String :=
  String.mk ((v.toList.dropWhile (fun c => c == ' ')).reverse.dropWhile (fun c => c == ' ')).reverse

/-- The identifier that the selector text `"[data-id=" + v + "]"` compares `data-id` with,
where the embedding fixes it: `v` itself when it is plain, `v` without the spaces around it
when that is plain. -/
def selectorTarget (v : String) : Option String :=
  if plainId v then some v
  else if plainId (stripSpaces v) then some (stripSpaces v)
  else none

/-- A value for which `"[data-id=" + v + "]"` is no selector: the empty one, and one with a
dot and otherwise plain characters only. -/
def rejected (v : String) : Bool :=
  v == "" || (v.toList.any (fun c => c == '.') && v.toList.all (fun c => plainChar c || c == '.'))

/-- Value the hidden input holds after `$input.val($item.data("id"))` for a row whose
`data-id` text is `v`. -/
def storedValue (E : Host) (v : String) : String :=
  if v == "null" then ""
  else if plainId v then v
  else E.dataValue v

/-- Rows whose `data-id` equals `id`. -/
def filterById (items : List Row) (id : String) : List Row :=
  items.filter fun r => r.id == id

/-- Text of `.find(".name").text()` over a set of rows: the texts of all of them, joined in
document order. -/
def namesText (rows : List Row) : String :=
  String.join (rows.map fun r => r.name)

/-- Value of `this.$items.filter("[data-id=" + id + "]").find(".name").text()`; `none` when
the selector text is rejected. -/
def nameLookup (E : Host) (id : String) (items : List Row) : Option String :=
  match selectorTarget id with
  | some t => some (namesText (filterById items t))
  | none =>
    if rejected id then none
    else E.lookupOther id items

/-- State a call leaves, whether it returned or threw. -/
def stateOf (r : Except Widget Widget) : Widget :=
  match r with
  | .ok s => s
  | .error s => s

/-- Method `setLabel`.  The lookup of the name comes first, so a rejected selector throws
before anything is written. -/
def setLabel (E : Host) (w : Widget) : Except Widget Widget :=
  let id := w.input
  if truthy id then
    match nameLookup E id w.items with
    | none => .error w
    | some name =>
      .ok { w with
            nothingSelectedVisible := false
            selectionVisible := true
            selectionText := name
            removeFilterVisible := true }
  else
    .ok { w with
          nothingSelectedVisible := true
          selectionVisible := false
          selectionText := ""
          removeFilterVisible := false }

/-- Method `itemSelected`; `target` is the row `ev.currentTarget`. -/
def itemSelected (E : Host) (w : Widget) (target : Row) : Except Widget Widget :=
  let id := storedValue E target.id
  setLabel E { w with input := id, changeEvents := w.changeEvents + 1 }

/-- Method `getQueryString`. -/
def getQueryString (w : Widget) : String :=
  if truthy w.input then
    w.key ++ ":" ++ w.input ++ " "
  else
    ""

/-- Method `removeFilter`. -/
def removeFilter (E : Host) (w : Widget) : Except Widget Widget :=
  setLabel E { w with input := "", changeEvents := w.changeEvents + 1 }

/-- Text written into `.facet-item-count` for a bucket entry. -/
def countText (c : Count) : String := " (" ++ toString c.val ++ ")"

/-- The two writes of the loop body on one row: the count text where the flag `f.1` is set,
the removal of `hidden` where `f.2` is set. -/
def writeRow (f : Bool × Bool) (t : String) (r : Row) : Row :=
  { r with
    count := if f.1 then t else r.count
    hidden := if f.2 then false else r.hidden }

/-- The two writes of the loop body on the rows from position `i` on. -/
def writeRows (m : Nat → Bool × Bool) (t : String) : Nat → List Row → List Row
  | _, [] => []
  | i, r :: rs => writeRow (m i) t r :: writeRows m t (i + 1) rs

/-- Body of the `for` loop of `update` for one bucket entry: the rows selected by
`[data-id=<entry id>]` get the count text and lose their `hidden` attribute; `none` when
the selector text is rejected, which happens before anything is written. -/
def applyEntry (E : Host) (items : List Row) (e : BucketEntry) : Option (List Row) :=
  match selectorTarget e.1 with
  | some t =>
    some (items.map fun r =>
      if r.id == t then { r with count := countText e.2, hidden := false } else r)
  | none =>
    if rejected e.1 then none
    else (E.findOther e.1 items).map fun m => writeRows m (countText e.2) 0 items

/-- The `for` loop of `update`: `.error rows` when an entry's selector is rejected, with the
rows as the earlier entries left them. -/
def runEntries (E : Host) : List Row → List BucketEntry → Except (List Row) (List Row)
  | items, [] => .ok items
  | items, e :: es =>
    match applyEntry E items e with
    | none => .error items
    | some items2 => runEntries E items2 es

/-- Rows a run of the loop leaves, whether it ended or threw. -/
def rowsOf (r : Except (List Row) (List Row)) : List Row :=
  match r with
  | .ok items => items
  | .error items => items

/-- The two statements below `// Reset to defaults` in `update`. -/
def resetDefaults (w : Widget) : Widget :=
  { w with
    buttonDisabled := false
    items := w.items.map fun r => { r with hidden := true } }

/-- Method `update`.  It throws when the payload has no list for the key (reading `.length`
of `undefined`) and when an entry's selector is rejected; the defaults are reset before. -/
def update (E : Host) (w : Widget) (data : Payload) : Except Widget Widget :=
  let w1 := resetDefaults w
  match data.facets w.key with
  | none => .error w1
  | some buckets =>
    if buckets.length = 0 then
      if !truthy w1.input then
        .ok { w1 with buttonDisabled := true }
      else
        .ok w1
    else
      match runEntries E w1.items buckets with
      | .ok items => .ok { w1 with items := items }
      | .error items => .error { w1 with items := items }

/-- State left behind by a call of `update`, whether it returned or threw. -/
def updateState (E : Host) (w : Widget) (data : Payload) : Widget :=
  stateOf (update E w data)

/-- The constructor: `dom` gives the key, the hidden input, the rows and the label areas as
found in the document; the constructor has list.js sort the rows and renders the label. -/
def construct (E : Host) (dom : Widget) : Except Widget Widget :=
  setLabel E { dom with items := E.sortRows dom.items }

/-- States the widget can be in once the constructor has run: the state the constructor
leaves, closed under the click handlers and `update`, each taken with the state it leaves
when it returns or throws. -/
inductive Reachable (E : Host) : Widget → Prop
  | construct (dom : Widget) : Reachable E (stateOf (construct E dom))
  | itemSelected {w : Widget} (r : Row) :
      Reachable E w → r ∈ w.items → Reachable E (stateOf (itemSelected E w r))
  | removeFilter {w : Widget} : Reachable E w → Reachable E (stateOf (removeFilter E w))
  | update {w : Widget} (data : Payload) : Reachable E w → Reachable E (updateState E w data)

/-- A host for the examples: it keeps the row order, stores a `data-id` text as it is, and
rejects every selector on which the embedding fixes nothing. -/
def strictHost : Host :=
  { dataValue := fun v => v
    sortRows := fun rows => rows
    lookupOther := fun _ _ => none
    findOther := fun _ _ => none }

/-- The example document of the end-to-end scenario: key `color`, rows red/Red and
blue/Blue, nothing selected. -/
def colorDom : Widget :=
  { key := "color"
    input := ""
    items := [⟨"red", "Red", false, ""⟩, ⟨"blue", "Blue", false, ""⟩]
    nothingSelectedVisible := true
    selectionVisible := false
    selectionText := ""
    removeFilterVisible := false
    buttonDisabled := false
    changeEvents := 0 }

/-- Payload with the bucket list `b` under key `k` and nothing else. -/
def payloadFor (k : String) (b : List BucketEntry) : Payload :=
  ⟨fun k2 => if k2 = k then some b else none⟩

/-- What one bucket entry with a plain identifier does to a single row. -/
def stepRow (r : Row) (e : BucketEntry) : Row :=
  if r.id == e.1 then { r with count := countText e.2, hidden := false } else r

/-- What a whole bucket list with plain identifiers does to a single row. -/
def rowFold (b : List BucketEntry) (r : Row) : Row :=
  b.foldl stepRow r

/-- What the reset of `update` does to a single row. -/
def hideRow (r : Row) : Row :=
  { r with hidden := true }

/-- The identifiers listed in a bucket list. -/
def bucketIds (b : List BucketEntry) : List String :=
  b.map Prod.fst

/-- Every identifier listed in the bucket list is plain. -/
def plainBuckets (b : List BucketEntry) : Prop :=
  ∀ e ∈ b, plainId e.1 = true

/-- The `data-id` texts of the rows, in order. -/
def rowIds (items : List Row) : List String :=
  items.map fun r => r.id

/-- The part of a row that no method writes: identifier and display name. -/
def rowKey (r : Row) : String × String :=
  (r.id, r.name)

/-- The label area as the user sees it: placeholder shown, selection shown, selection text,
remove control shown. -/
def labelView (w : Widget) : Bool × Bool × String × Bool :=
  (w.nothingSelectedVisible, w.selectionVisible, w.selectionText, w.removeFilterVisible)

/-- With an empty hidden input the label area shows the placeholder only. -/
def UnselectedShown (w : Widget) : Prop :=
  w.input = "" → labelView w = (true, false, "", false)

/-- The selection invariant of the data model: the hidden input is empty or is the id of
exactly one row. -/
def SelectionInv (w : Widget) : Prop :=
  w.input = "" ∨ (rowIds w.items).count w.input = 1

/-- The selection is empty or is the id of at least one row. -/
def SelectionKnown (w : Widget) : Prop :=
  w.input = "" ∨ ∃ r ∈ w.items, r.id = w.input

/-- Closed form of the state `update` leaves when the facet's key maps to the bucket list
`b` and every listed identifier is plain. -/
def afterUpdate (w : Widget) (b : List BucketEntry) : Widget :=
  { w with
    buttonDisabled := b.isEmpty && !truthy w.input
    items := w.items.map fun r => rowFold b (hideRow r) }

/-- A widget with the given key and rows, nothing selected, every row visible and without a
count, button enabled. -/
def freshWidget (key : String) (rows : List (String × String)) : Widget :=
  { key := key
    input := ""
    items := rows.map fun p => ⟨p.1, p.2, false, ""⟩
    nothingSelectedVisible := true
    selectionVisible := false
    selectionText := ""
    removeFilterVisible := false
    buttonDisabled := false
    changeEvents := 0 }

/-- Rows A, B and C under the key `letter`. -/
def abcWidget : Widget :=
  freshWidget "letter" [("A", "Alpha"), ("B", "Beta"), ("C", "Gamma")]

/-- Two rows that carry the same `data-id`, under the key `topic`. -/
def twinWidget : Widget :=
  freshWidget "topic" [("a", "One"), ("a", "Two")]

/-- One row whose `data-id` is the text `null`, under the key `topic`. -/
def nullWidget : Widget :=
  freshWidget "topic" [("null", "Nothing")]

/-! ## Auxiliary facts -/

theorem truthy_eq_false_iff (s : String) : truthy s = false ↔ s = "" := by
  simp [truthy]

theorem truthy_eq_true_iff (s : String) : truthy s = true ↔ s ≠ "" := by
  simp [truthy]

theorem plainId_ne_empty {v : String} (h : plainId v = true) : v ≠ "" := by
  intro he
  subst he
  revert h
  decide

theorem plainId_truthy {v : String} (h : plainId v = true) : truthy v = true :=
  (truthy_eq_true_iff v).mpr (plainId_ne_empty h)

theorem selectorTarget_plain {v : String} (h : plainId v = true) :
    selectorTarget v = some v := by
  simp [selectorTarget, h]

theorem storedValue_plain (E : Host) {v : String} (hp : plainId v = true) (hn : v ≠ "null") :
    storedValue E v = v := by
  simp [storedValue, hn, hp]

theorem storedValue_of_plain (E : Host) {v : String} (hp : plainId v = true) :
    storedValue E v = "" ∨ storedValue E v = v := by
  by_cases hn : v = "null"
  · left
    simp [storedValue, hn]
  · right
    exact storedValue_plain E hp hn

/-! ### One row under a bucket list with plain identifiers -/

theorem stepRow_key (r : Row) (e : BucketEntry) : rowKey (stepRow r e) = rowKey r := by
  unfold stepRow rowKey
  split <;> rfl

theorem rowFold_key (b : List BucketEntry) (r : Row) : rowKey (rowFold b r) = rowKey r := by
  induction b generalizing r with
  | nil => rfl
  | cons e es ih =>
    show rowKey (rowFold es (stepRow r e)) = rowKey r
    rw [ih, stepRow_key]

theorem rowFold_id (b : List BucketEntry) (r : Row) : (rowFold b r).id = r.id :=
  congrArg Prod.fst (rowFold_key b r)

theorem rowFold_name (b : List BucketEntry) (r : Row) : (rowFold b r).name = r.name :=
  congrArg Prod.snd (rowFold_key b r)

theorem hideRow_key (r : Row) : rowKey (hideRow r) = rowKey r := rfl

/-- A bucket list that does not list a row's identifier leaves the row alone. -/
theorem rowFold_of_not_mem (b : List BucketEntry) (r : Row) (h : r.id ∉ bucketIds b) :
    rowFold b r = r := by
  induction b generalizing r with
  | nil => rfl
  | cons e es ih =>
    simp only [bucketIds, List.map_cons, List.mem_cons, not_or] at h
    have hstep : stepRow r e = r := by
      unfold stepRow
      simp [h.1]
    show rowFold es (stepRow r e) = r
    rw [hstep]
    exact ih r h.2

/-- The last entry that lists a row's identifier decides the row. -/
theorem rowFold_of_last (pre post : List BucketEntry) (c : Count) (r : Row)
    (h : r.id ∉ bucketIds post) :
    rowFold (pre ++ (r.id, c) :: post) r = { r with count := countText c, hidden := false } := by
  have hsplit : rowFold (pre ++ (r.id, c) :: post) r
      = rowFold post (stepRow (rowFold pre r) (r.id, c)) := by
    simp [rowFold, List.foldl_append]
  have hid := rowFold_id pre r
  have hname := rowFold_name pre r
  have hstep : stepRow (rowFold pre r) (r.id, c)
      = { r with count := countText c, hidden := false } := by
    unfold stepRow
    simp only [hid, beq_self_eq_true, if_true]
    cases hx : rowFold pre r with
    | mk i n hd ct =>
      rw [hx] at hid hname
      cases r
      simp_all
  rw [hsplit, hstep]
  exact rowFold_of_not_mem post _ h

/-- An identifier that is listed has a last entry. -/
theorem exists_last_entry (b : List BucketEntry) (id : String) (h : id ∈ bucketIds b) :
    ∃ pre c post, b = pre ++ (id, c) :: post ∧ id ∉ bucketIds post := by
  induction b with
  | nil => simp [bucketIds] at h
  | cons e es ih =>
    by_cases hes : id ∈ bucketIds es
    · obtain ⟨pre, c, post, hb, hp⟩ := ih hes
      exact ⟨e :: pre, c, post, by simp [hb], hp⟩
    · simp only [bucketIds, List.map_cons, List.mem_cons] at h
      rcases h with h | h
      · refine ⟨[], e.2, es, ?_, hes⟩
        simp [h]
      · exact absurd h hes

theorem rowFold_hidden_of_mem (b : List BucketEntry) (r : Row) (h : r.id ∈ bucketIds b) :
    (rowFold b r).hidden = false := by
  obtain ⟨pre, c, post, hb, hp⟩ := exists_last_entry b r.id h
  rw [hb, rowFold_of_last pre post c r hp]

/-- A row after the reset and a bucket list: shown exactly when it is listed. -/
theorem rowFold_hideRow_hidden (b : List BucketEntry) (r : Row) :
    (rowFold b (hideRow r)).hidden = false ↔ r.id ∈ bucketIds b := by
  constructor
  · intro h
    by_contra hn
    have hn2 : (hideRow r).id ∉ bucketIds b := hn
    rw [rowFold_of_not_mem b (hideRow r) hn2] at h
    simp [hideRow] at h
  · intro h
    exact rowFold_hidden_of_mem b (hideRow r) h

/-- Resetting and applying a bucket list to a row a second time changes nothing. -/
theorem rowFold_hideRow_idem (b : List BucketEntry) (r : Row) :
    rowFold b (hideRow (rowFold b (hideRow r))) = rowFold b (hideRow r) := by
  by_cases h : r.id ∈ bucketIds b
  · obtain ⟨pre, c, post, hsplit, hpost⟩ := exists_last_entry b r.id h
    have h1 : rowFold b (hideRow r) = ⟨r.id, r.name, false, countText c⟩ := by
      rw [hsplit]
      exact rowFold_of_last pre post c (hideRow r) hpost
    have h2 : rowFold b ⟨r.id, r.name, true, countText c⟩
        = ⟨r.id, r.name, false, countText c⟩ := by
      rw [hsplit]
      exact rowFold_of_last pre post c ⟨r.id, r.name, true, countText c⟩ hpost
    rw [h1]
    exact h2
  · have h1 : rowFold b (hideRow r) = hideRow r := rowFold_of_not_mem b (hideRow r) h
    rw [h1]
    exact h1

/-! ### The loop of `update` -/

theorem applyEntry_plain (E : Host) (items : List Row) (e : BucketEntry)
    (hp : plainId e.1 = true) :
    applyEntry E items e = some (items.map fun r => stepRow r e) := by
  simp [applyEntry, selectorTarget_plain hp, stepRow]

/-- With plain identifiers the loop ends and treats every row by `rowFold`. -/
theorem runEntries_plain (E : Host) (b : List BucketEntry) (hp : plainBuckets b)
    (items : List Row) : runEntries E items b = .ok (items.map (rowFold b)) := by
  induction b generalizing items with
  | nil =>
    have h : rowFold [] = id := rfl
    simp [runEntries, h]
  | cons e es ih =>
    have he : plainId e.1 = true := hp e (List.mem_cons_self e es)
    have hes : plainBuckets es := fun x hx => hp x (List.mem_cons_of_mem e hx)
    simp only [runEntries, applyEntry_plain E items e he, ih hes, List.map_map]
    rfl

theorem writeRows_keys (m : Nat → Bool × Bool) (t : String) (i : Nat) (items : List Row) :
    (writeRows m t i items).map rowKey = items.map rowKey := by
  induction items generalizing i with
  | nil => rfl
  | cons r rs ih =>
    simp only [writeRows, List.map_cons, ih]
    rfl

theorem applyEntry_keys (E : Host) (items items2 : List Row) (e : BucketEntry)
    (h : applyEntry E items e = some items2) : items2.map rowKey = items.map rowKey := by
  unfold applyEntry at h
  split at h
  · simp only [Option.some.injEq] at h
    subst h
    simp only [List.map_map]
    apply List.map_congr_left
    intro r _
    simp only [Function.comp_apply, rowKey]
    split <;> rfl
  · split at h
    · exact absurd h (by simp)
    · cases hf : E.findOther e.1 items with
      | none => simp [hf] at h
      | some m =>
        simp only [hf, Option.map_some', Option.some.injEq] at h
        subst h
        exact writeRows_keys m _ 0 items

/-- However the loop ends, it keeps every row's identifier and name, in order. -/
theorem runEntries_keys (E : Host) (b : List BucketEntry) (items : List Row) :
    (rowsOf (runEntries E items b)).map rowKey = items.map rowKey := by
  induction b generalizing items with
  | nil => rfl
  | cons e es ih =>
    cases ha : applyEntry E items e with
    | none => simp [runEntries, ha, rowsOf]
    | some items2 =>
      simp only [runEntries, ha]
      rw [ih items2, applyEntry_keys E items items2 e ha]


/-! ### The method `update` -/

theorem update_of_nil (E : Host) (w : Widget) (data : Payload)
    (hb : data.facets w.key = some []) :
    update E w data
      = .ok (if w.input = "" then { resetDefaults w with buttonDisabled := true }
              else resetDefaults w) := by
  by_cases h : w.input = ""
  · simp [update, hb, resetDefaults, truthy, h]
  · simp [update, hb, resetDefaults, truthy, h]

theorem update_of_none (E : Host) (w : Widget) (data : Payload)
    (hb : data.facets w.key = none) : update E w data = .error (resetDefaults w) := by
  simp [update, hb]

theorem update_of_nonempty (E : Host) (w : Widget) (data : Payload) (b : List BucketEntry)
    (hb : data.facets w.key = some b) (hne : b ≠ []) (hp : plainBuckets b) :
    update E w data
      = .ok { resetDefaults w with items := w.items.map (fun r => rowFold b (hideRow r)) } := by
  have hlen : ¬ b.length = 0 := by
    intro h
    exact hne (List.length_eq_zero.mp h)
  simp only [update, hb, hlen, if_false, runEntries_plain E b hp]
  simp [resetDefaults, List.map_map, Function.comp_def, hideRow]

theorem update_of_some (E : Host) (w : Widget) (data : Payload) (b : List BucketEntry)
    (hb : data.facets w.key = some b) (hp : plainBuckets b) :
    update E w data = .ok (afterUpdate w b) := by
  cases b with
  | nil =>
    rw [update_of_nil E w data hb]
    have h0 : ∀ r : Row, rowFold [] (hideRow r) = { r with hidden := true } := fun _ => rfl
    by_cases h : w.input = ""
    · simp [h, afterUpdate, resetDefaults, truthy, h0]
    · simp [h, afterUpdate, resetDefaults, truthy, h0]
  | cons e es =>
    rw [update_of_nonempty E w data (e :: es) hb (by simp) hp]
    simp [afterUpdate, resetDefaults]

theorem afterUpdate_idem (w : Widget) (b : List BucketEntry) :
    afterUpdate (afterUpdate w b) b = afterUpdate w b := by
  simp [afterUpdate, List.map_map, Function.comp_def, rowFold_hideRow_idem]

/-- Whatever the payload and however the call ends, `update` writes the button and the rows
only, and of a row only `hidden` and the count text. -/
theorem updateState_frame (E : Host) (w : Widget) (data : Payload) :
    (updateState E w data).key = w.key
      ∧ (updateState E w data).input = w.input
      ∧ labelView (updateState E w data) = labelView w
      ∧ (updateState E w data).items.map rowKey = w.items.map rowKey := by
  have hreset : (resetDefaults w).items.map rowKey = w.items.map rowKey := by
    simp [resetDefaults, rowKey, Function.comp_def]
  unfold updateState
  cases hb : data.facets w.key with
  | none =>
    rw [update_of_none E w data hb]
    exact ⟨rfl, rfl, rfl, hreset⟩
  | some b =>
    cases b with
    | nil =>
      rw [update_of_nil E w data hb]
      by_cases h : w.input = ""
      · simp only [h, if_true]
        exact ⟨rfl, h.symm ▸ rfl, rfl, hreset⟩
      · simp only [h, if_false]
        exact ⟨rfl, rfl, rfl, hreset⟩
    | cons e es =>
      have hkeys := runEntries_keys E (e :: es) (resetDefaults w).items
      have hlen : ¬ (e :: es).length = 0 := by simp
      simp only [update, hb, hlen, if_false]
      cases hr : runEntries E (resetDefaults w).items (e :: es) with
      | ok items =>
        rw [hr] at hkeys
        exact ⟨rfl, rfl, rfl, hkeys.trans hreset⟩
      | error items =>
        rw [hr] at hkeys
        exact ⟨rfl, rfl, rfl, hkeys.trans hreset⟩

theorem updateState_length (E : Host) (w : Widget) (data : Payload) :
    (updateState E w data).items.length = w.items.length := by
  have h := congrArg List.length (updateState_frame E w data).2.2.2
  simpa using h

/-! ### The label -/

theorem namesText_singleton (r : Row) : namesText [r] = r.name := by
  simp [namesText, String.join]

theorem rowIds_eq (items : List Row) : rowIds items = (items.map rowKey).map Prod.fst := by
  simp [rowIds, rowKey, Function.comp_def]

theorem filterById_length (items : List Row) (v : String) :
    (filterById items v).length = (rowIds items).count v := by
  induction items with
  | nil => rfl
  | cons a t ih =>
    by_cases h : a.id = v
    · simp [filterById, rowIds, List.filter_cons, h] at ih ⊢
      exact ih
    · have h2 : ¬ (a.id == v) = true := by simpa using h
      simp [filterById, rowIds, List.filter_cons, h, List.count_cons] at ih ⊢
      exact ih

/-- When a row's identifier is carried by one row only, the lookup by that identifier gives
that row. -/
theorem filterById_of_count_one (items : List Row) (r : Row) (hr : r ∈ items)
    (hc : (rowIds items).count r.id = 1) : filterById items r.id = [r] := by
  have hlen : (filterById items r.id).length = 1 := by
    rw [filterById_length, hc]
  have hmem : r ∈ filterById items r.id := by
    simp [filterById, hr]
  obtain ⟨x, hx⟩ := List.length_eq_one.mp hlen
  rw [hx] at hmem ⊢
  simp only [List.mem_singleton] at hmem
  rw [hmem]

theorem filterById_of_not_mem (items : List Row) (v : String) (h : v ∉ rowIds items) :
    filterById items v = [] := by
  simp only [filterById, List.filter_eq_nil_iff]
  intro r hr hv
  apply h
  simp only [rowIds, List.mem_map]
  exact ⟨r, hr, by simpa using hv⟩

theorem setLabel_empty (E : Host) (w : Widget) (h : w.input = "") :
    setLabel E w
      = .ok { w with
              nothingSelectedVisible := true
              selectionVisible := false
              selectionText := ""
              removeFilterVisible := false } := by
  simp [setLabel, truthy, h]

theorem setLabel_plain (E : Host) (w : Widget) (h : plainId w.input = true) :
    setLabel E w
      = .ok { w with
              nothingSelectedVisible := false
              selectionVisible := true
              selectionText := namesText (filterById w.items w.input)
              removeFilterVisible := true } := by
  simp [setLabel, plainId_truthy h, nameLookup, selectorTarget_plain h]

/-- However `setLabel` ends, it leaves input, rows, key and button as they were. -/
theorem setLabel_frame (E : Host) (w : Widget) :
    (stateOf (setLabel E w)).input = w.input
      ∧ (stateOf (setLabel E w)).items = w.items
      ∧ (stateOf (setLabel E w)).key = w.key
      ∧ (stateOf (setLabel E w)).buttonDisabled = w.buttonDisabled := by
  unfold setLabel
  simp only []
  split
  · split
    · exact ⟨rfl, rfl, rfl, rfl⟩
    · exact ⟨rfl, rfl, rfl, rfl⟩
  · exact ⟨rfl, rfl, rfl, rfl⟩

theorem unselectedShown_setLabel (E : Host) (w : Widget) :
    UnselectedShown (stateOf (setLabel E w)) := by
  intro h
  rw [(setLabel_frame E w).1] at h
  rw [setLabel_empty E w h]
  rfl

/-- Once the constructor has run, an empty hidden input always goes with the placeholder
view. -/
theorem reachable_unselectedShown {E : Host} {w : Widget} (h : Reachable E w) :
    UnselectedShown w := by
  induction h with
  | construct dom => exact unselectedShown_setLabel E _
  | itemSelected r _ _ _ => exact unselectedShown_setLabel E _
  | removeFilter _ _ => exact unselectedShown_setLabel E _
  | @update w0 data _ ih =>
    intro hin
    have hf := updateState_frame E w0 data
    rw [hf.2.1] at hin
    rw [hf.2.2.1]
    exact ih hin

theorem removeFilter_eq (E : Host) (w : Widget) :
    removeFilter E w
      = .ok { w with
              input := ""
              changeEvents := w.changeEvents + 1
              nothingSelectedVisible := true
              selectionVisible := false
              selectionText := ""
              removeFilterVisible := false } := by
  unfold removeFilter
  rw [setLabel_empty E _ rfl]

/-! ## Claims -/

/-- C1: `getQueryString` returns the empty string when the hidden input's value is empty and
otherwise exactly key, one colon, the value, one trailing space. -/
theorem getQueryString_spec (w : Widget) :
    getQueryString w = if w.input = "" then "" else w.key ++ ":" ++ w.input ++ " " := by
  unfold getQueryString
  by_cases h : w.input = ""
  · simp [h, truthy]
  · simp [h, truthy]

/-- C2 as stated fails: a row whose `data-id` is the text `null` is a row of the facet with
a non-empty identifier, and after `itemSelected` on it the hidden input is empty, so
`getQueryString` returns the empty string and not `topic:null `, whatever the host. -/
theorem itemSelected_null_counterexample :
    ¬ ∃ E : Host,
        getQueryString (stateOf (itemSelected E nullWidget ⟨"null", "Nothing", false, ""⟩))
          = nullWidget.key ++ ":" ++ "null" ++ " " := by
  rintro ⟨E, h⟩
  have he : getQueryString (stateOf (itemSelected E nullWidget ⟨"null", "Nothing", false, ""⟩))
      = "" := rfl
  rw [he] at h
  revert h
  decide

/-- C2 (as the code has it): after `itemSelected` on a row of the facet whose identifier is
made of letters, digits, `_` and `-` only and is not the text `null`, the call has returned,
`getQueryString` returns key, colon, that identifier and a space, the selection label and the
remove control are shown and the placeholder is hidden; the label text is the display name
of the row when no other row carries its identifier. -/
theorem itemSelected_spec (E : Host) (w : Widget) (r : Row) (hr : r ∈ w.items)
    (hp : plainId r.id = true) (hn : r.id ≠ "null") :
    ∃ s, itemSelected E w r = .ok s
      ∧ getQueryString s = w.key ++ ":" ++ r.id ++ " "
      ∧ s.input = r.id
      ∧ s.selectionVisible = true
      ∧ s.nothingSelectedVisible = false
      ∧ s.removeFilterVisible = true
      ∧ ((rowIds w.items).count r.id = 1 → s.selectionText = r.name) := by
  have hstored := storedValue_plain E hp hn
  have hplain : plainId ({ w with input := storedValue E r.id,
                                  changeEvents := w.changeEvents + 1 } : Widget).input = true := by
    show plainId (storedValue E r.id) = true
    rw [hstored]
    exact hp
  refine ⟨_, setLabel_plain E _ hplain, ?_, ?_, rfl, rfl, rfl, ?_⟩
  · show getQueryString { w with input := storedValue E r.id, .. } = _
    simp [getQueryString, hstored, plainId_truthy hp]
  · exact hstored
  · intro hone
    show namesText (filterById w.items (storedValue E r.id)) = r.name
    rw [hstored, filterById_of_count_one w.items r hr hone, namesText_singleton]

/-- C2 at the example of the specification: key `color`, rows red/Red and blue/Blue, a click
on Red gives `color:red ` and the label `Red`. -/
theorem itemSelected_spec_witness :
    ∃ s, itemSelected strictHost (stateOf (construct strictHost colorDom))
            ⟨"red", "Red", false, ""⟩ = .ok s
      ∧ getQueryString s = "color:red "
      ∧ s.selectionVisible = true
      ∧ s.selectionText = "Red" :=
  have h := itemSelected_spec strictHost (stateOf (construct strictHost colorDom))
    ⟨"red", "Red", false, ""⟩ (by decide) (by decide) (by decide)
  match h with
  | ⟨s, h1, h2, _, h4, _, _, h7⟩ => ⟨s, h1, h2, h4, h7 (by decide)⟩

/-- C3 as stated fails, whatever the host.  With the buckets `[[A,5],[A,7]]` row A is listed
with count 5 but carries the text ` (7)`.  And with the non-empty bucket list `[["",1]]` the
selector text `[data-id=]` is rejected, so `update` throws and there is no state after it
that it returned. -/
theorem update_duplicate_entry_counterexample :
    (¬ ∃ (E : Host) (s : Widget),
        update E abcWidget (payloadFor "letter" [("A", 5), ("A", 7)]) = .ok s
        ∧ s.buttonDisabled = false
        ∧ (∀ r ∈ s.items, r.hidden = false ↔ r.id ∈ bucketIds [("A", 5), ("A", 7)])
        ∧ (∀ r ∈ s.items, ∀ c, (r.id, c) ∈ [("A", 5), ("A", 7)] → r.count = countText c))
      ∧ ¬ ∃ (E : Host) (s : Widget),
          update E abcWidget (payloadFor "letter" [("", 1)]) = .ok s := by
  constructor
  · rintro ⟨E, s, hs, _, _, hc⟩
    have he : update E abcWidget (payloadFor "letter" [("A", 5), ("A", 7)])
        = .ok { abcWidget with
                items := [⟨"A", "Alpha", false, " (7)"⟩, ⟨"B", "Beta", true, ""⟩,
                          ⟨"C", "Gamma", true, ""⟩] } := rfl
    rw [he] at hs
    have hs2 := Except.ok.inj hs
    subst hs2
    have h := hc ⟨"A", "Alpha", false, " (7)"⟩ (by decide) 5 (by decide)
    revert h
    decide
  · rintro ⟨E, s, hs⟩
    have he : update E abcWidget (payloadFor "letter" [("", 1)])
        = .error (resetDefaults abcWidget) := rfl
    rw [he] at hs
    cases hs

/-- C3 (as the code has it): when the bucket list for the facet's key is not empty and lists
only identifiers made of letters, digits, `_` and `-`, `update` returns, keeps the rows
(identifier and name, in order), leaves the button enabled, leaves a row visible exactly when
its identifier is listed, and gives a listed row the count text of the last entry that lists
its identifier. -/
theorem update_nonempty_spec (E : Host) (w : Widget) (data : Payload) (b : List BucketEntry)
    (hb : data.facets w.key = some b) (hne : b ≠ []) (hp : plainBuckets b) :
    ∃ s, update E w data = .ok s
      ∧ s.items.map rowKey = w.items.map rowKey
      ∧ s.buttonDisabled = false
      ∧ (∀ r ∈ s.items, r.hidden = false ↔ r.id ∈ bucketIds b)
      ∧ (∀ r ∈ s.items, ∀ pre c post, b = pre ++ (r.id, c) :: post → r.id ∉ bucketIds post →
          r.count = countText c) := by
  refine ⟨_, update_of_nonempty E w data b hb hne hp, ?_, rfl, ?_, ?_⟩
  · simp only [List.map_map]
    apply List.map_congr_left
    intro r _
    simp only [Function.comp_apply]
    rw [rowFold_key, hideRow_key]
  · intro r hr
    simp only [List.mem_map] at hr
    obtain ⟨r0, _, rfl⟩ := hr
    rw [rowFold_hideRow_hidden, rowFold_id]
    rfl
  · intro r hr pre c post hsplit hpost
    simp only [List.mem_map] at hr
    obtain ⟨r0, _, rfl⟩ := hr
    have hid : (rowFold b (hideRow r0)).id = (hideRow r0).id := rowFold_id b (hideRow r0)
    rw [hid] at hsplit hpost
    rw [hsplit, rowFold_of_last pre post c (hideRow r0) hpost]

/-- C3 at the example of the specification: rows A, B, C and buckets `[[A,5],[C,2]]` leave
A with ` (5)` and C with ` (2)` visible, B hidden, and the button enabled. -/
theorem update_nonempty_spec_witness :
    update strictHost abcWidget (payloadFor "letter" [("A", 5), ("C", 2)])
        = .ok { abcWidget with
                items := [⟨"A", "Alpha", false, " (5)"⟩, ⟨"B", "Beta", true, ""⟩,
                          ⟨"C", "Gamma", false, " (2)"⟩] }
      ∧ ∃ s, update strictHost abcWidget (payloadFor "letter" [("A", 5), ("C", 2)]) = .ok s
        ∧ s.items.map rowKey = abcWidget.items.map rowKey
        ∧ s.buttonDisabled = false
        ∧ (∀ r ∈ s.items, r.hidden = false ↔ r.id ∈ bucketIds [("A", 5), ("C", 2)])
        ∧ (∀ r ∈ s.items, ∀ pre c post, [("A", 5), ("C", 2)] = pre ++ (r.id, c) :: post →
            r.id ∉ bucketIds post → r.count = countText c) :=
  ⟨by rfl, update_nonempty_spec strictHost abcWidget (payloadFor "letter" [("A", 5), ("C", 2)])
    [("A", 5), ("C", 2)] (by rfl) (by decide) (by unfold plainBuckets; decide)⟩

/-- C4: when the bucket list for the facet's key is empty, `update` returns, keeps the rows
and the selection, disables the button exactly when the hidden input is empty, and leaves
every row hidden. -/
theorem update_empty_spec (E : Host) (w : Widget) (data : Payload)
    (hb : data.facets w.key = some []) :
    ∃ s, update E w data = .ok s
      ∧ s.input = w.input
      ∧ s.items.map rowKey = w.items.map rowKey
      ∧ s.items.length = w.items.length
      ∧ (s.buttonDisabled = true ↔ w.input = "")
      ∧ (∀ r ∈ s.items, r.hidden = true) := by
  refine ⟨_, update_of_nil E w data hb, ?_⟩
  by_cases h : w.input = ""
  · simp [h, resetDefaults, rowKey, Function.comp_def]
  · simp [h, resetDefaults, rowKey, Function.comp_def]

/-- C4 at an example: with nothing selected an empty bucket list disables the button. -/
theorem update_empty_spec_witness :
    (payloadFor "letter" []).facets abcWidget.key = some []
      ∧ ∃ s, update strictHost abcWidget (payloadFor "letter" []) = .ok s
        ∧ s.input = abcWidget.input
        ∧ s.items.map rowKey = abcWidget.items.map rowKey
        ∧ s.items.length = abcWidget.items.length
        ∧ (s.buttonDisabled = true ↔ abcWidget.input = "")
        ∧ (∀ r ∈ s.items, r.hidden = true) :=
  ⟨by rfl, update_empty_spec strictHost abcWidget (payloadFor "letter" []) (by rfl)⟩

/-- C5 (the code at the failing input): the bucket entry `[A, 0]` reveals row A, which then
shows the count text ` (0)`, and the button stays enabled, whatever the host. -/
theorem update_reveals_zero_count_row (E : Host) :
    update E abcWidget (payloadFor "letter" [("A", 0)])
        = .ok { abcWidget with
                items := [⟨"A", "Alpha", false, " (0)"⟩, ⟨"B", "Beta", true, ""⟩,
                          ⟨"C", "Gamma", true, ""⟩] } := by
  rfl

/-- C6 as stated fails, whatever the host.  After the buckets `[[A,5],[C,2]]` and then
`[[C,3]]`, row A, which the second list does not name, still carries the count text ` (5)`
of the first call.  And after `[[C,2]]` and then `[["A ",1]]`, whose selector text
`[data-id=A ]` selects row A, row A is visible although the list does not name `A`. -/
theorem update_twice_counterexample :
    (¬ ∃ E : Host, ∀ (i : Nat) (r1 r2 : Row),
        (updateState E abcWidget (payloadFor "letter" [("A", 5), ("C", 2)])).items[i]? = some r1 →
        (updateState E (updateState E abcWidget (payloadFor "letter" [("A", 5), ("C", 2)]))
          (payloadFor "letter" [("C", 3)])).items[i]? = some r2 →
        r1.id ∈ bucketIds [("A", 5), ("C", 2)] →
        r2.id ∉ bucketIds [("C", 3)] →
        r2.hidden = true ∧ r2.count ≠ r1.count)
      ∧ ¬ ∃ E : Host, ∀ (i : Nat) (r2 : Row),
          (updateState E (updateState E abcWidget (payloadFor "letter" [("C", 2)]))
            (payloadFor "letter" [("A ", 1)])).items[i]? = some r2 →
          r2.id ∉ bucketIds [("A ", 1)] →
          r2.hidden = true := by
  constructor
  · rintro ⟨E, h⟩
    have h0 := h 0 ⟨"A", "Alpha", false, " (5)"⟩ ⟨"A", "Alpha", true, " (5)"⟩
      (by rfl) (by rfl) (by decide) (by decide)
    exact h0.2 rfl
  · rintro ⟨E, h⟩
    have h0 := h 0 ⟨"A", "Alpha", false, " (1)"⟩ (by rfl) (by decide)
    revert h0
    decide

/-- C6 (as the code has it): after `update` with `p1` and then `update` with a `p2` whose
bucket list names only identifiers made of letters, digits, `_` and `-`, the second call has
returned and a row whose identifier that list does not name is hidden, and its count text
is the one it had after the first call: the reset hides rows and leaves their count text
alone. -/
theorem update_twice_absent_row (E : Host) (w : Widget) (p1 p2 : Payload)
    (b2 : List BucketEntry) (h2 : p2.facets w.key = some b2) (hp2 : plainBuckets b2) :
    ∃ s, update E (updateState E w p1) p2 = .ok s
      ∧ s.items.length = w.items.length
      ∧ ∀ (i : Nat) (r1 r2 : Row), (updateState E w p1).items[i]? = some r1 →
          s.items[i]? = some r2 → r2.id ∉ bucketIds b2 →
          r2.id = r1.id ∧ r2.hidden = true ∧ r2.count = r1.count := by
  have hk : p2.facets (updateState E w p1).key = some b2 := by
    rw [(updateState_frame E w p1).1]
    exact h2
  refine ⟨afterUpdate (updateState E w p1) b2, update_of_some E _ p2 b2 hk hp2, ?_, ?_⟩
  · simp [afterUpdate, updateState_length]
  · intro i r1 r2 h1 hs hnot
    simp only [afterUpdate, List.getElem?_map, h1, Option.map_some', Option.some.injEq] at hs
    subst hs
    have hid : (rowFold b2 (hideRow r1)).id = r1.id := rowFold_id b2 (hideRow r1)
    rw [hid] at hnot
    have hrow : rowFold b2 (hideRow r1) = hideRow r1 := rowFold_of_not_mem b2 (hideRow r1) hnot
    rw [hrow]
    exact ⟨rfl, rfl, rfl⟩

/-- C6 at an example: buckets `[[A,5],[C,2]]`, then `[[C,3]]`. -/
theorem update_twice_absent_row_witness :
    (payloadFor "letter" [("C", 3)]).facets abcWidget.key = some [("C", 3)]
      ∧ ∃ s, update strictHost
            (updateState strictHost abcWidget (payloadFor "letter" [("A", 5), ("C", 2)]))
            (payloadFor "letter" [("C", 3)]) = .ok s
        ∧ s.items.length = abcWidget.items.length
        ∧ ∀ (i : Nat) (r1 r2 : Row),
            (updateState strictHost abcWidget
              (payloadFor "letter" [("A", 5), ("C", 2)])).items[i]? = some r1 →
            s.items[i]? = some r2 → r2.id ∉ bucketIds [("C", 3)] →
            r2.id = r1.id ∧ r2.hidden = true ∧ r2.count = r1.count :=
  ⟨by rfl, update_twice_absent_row strictHost abcWidget
    (payloadFor "letter" [("A", 5), ("C", 2)])
    (payloadFor "letter" [("C", 3)]) [("C", 3)] (by rfl) (by unfold plainBuckets; decide)⟩

/-- C7 as stated fails: in the state reached by selecting Blue, selecting Red and then
removing the filter leaves the selection label hidden, while it was shown before. -/
theorem round_trip_counterexample :
    ¬ (∀ (E : Host) (w : Widget), Reachable E w → ∀ r ∈ w.items,
        (stateOf (removeFilter E (stateOf (itemSelected E w r)))).nothingSelectedVisible
            = w.nothingSelectedVisible
          ∧ (stateOf (removeFilter E (stateOf (itemSelected E w r)))).selectionVisible
            = w.selectionVisible
          ∧ (stateOf (removeFilter E (stateOf (itemSelected E w r)))).selectionText
            = w.selectionText
          ∧ (stateOf (removeFilter E (stateOf (itemSelected E w r)))).removeFilterVisible
            = w.removeFilterVisible) := by
  intro h
  have hreach : Reachable strictHost
      (stateOf (itemSelected strictHost (stateOf (construct strictHost colorDom))
        ⟨"blue", "Blue", false, ""⟩)) :=
    Reachable.itemSelected _ (Reachable.construct colorDom) (by decide)
  have h0 := h strictHost _ hreach ⟨"red", "Red", false, ""⟩ (by decide)
  revert h0
  decide

/-- C7 (as the code has it): in a state the constructed widget can reach and in which the
hidden input is empty, `itemSelected` on a row of the facet, whether it returns or throws,
followed by `removeFilter`, which returns, leaves placeholder, selection label, label text
and remove control as they were, and the hidden input empty. -/
theorem round_trip_unselected (E : Host) (w : Widget) (r : Row) (hw : Reachable E w)
    (hin : w.input = "") (_hr : r ∈ w.items) :
    ∃ s, removeFilter E (stateOf (itemSelected E w r)) = .ok s
      ∧ s.nothingSelectedVisible = w.nothingSelectedVisible
      ∧ s.selectionVisible = w.selectionVisible
      ∧ s.selectionText = w.selectionText
      ∧ s.removeFilterVisible = w.removeFilterVisible
      ∧ s.input = w.input := by
  have h2 : labelView w = (true, false, "", false) := reachable_unselectedShown hw hin
  simp only [labelView, Prod.mk.injEq] at h2
  refine ⟨_, removeFilter_eq E _, ?_, ?_, ?_, ?_, ?_⟩
  · exact h2.1.symm
  · exact h2.2.1.symm
  · exact h2.2.2.1.symm
  · exact h2.2.2.2.symm
  · exact hin.symm

/-- C7 at the example document: click Red, then remove. -/
theorem round_trip_unselected_witness :
    Reachable strictHost (stateOf (construct strictHost colorDom))
      ∧ (stateOf (construct strictHost colorDom)).input = ""
      ∧ ∃ s, removeFilter strictHost
            (stateOf (itemSelected strictHost (stateOf (construct strictHost colorDom))
              ⟨"red", "Red", false, ""⟩)) = .ok s
        ∧ s.selectionVisible = (stateOf (construct strictHost colorDom)).selectionVisible
        ∧ s.selectionText = (stateOf (construct strictHost colorDom)).selectionText :=
  have h := round_trip_unselected strictHost (stateOf (construct strictHost colorDom))
    ⟨"red", "Red", false, ""⟩ (Reachable.construct colorDom) (by decide) (by decide)
  match h with
  | ⟨s, h1, _, h3, h4, _, _⟩ => ⟨Reachable.construct colorDom, by decide, s, h1, h3, h4⟩

/-- C8 as stated fails: with `v1.2` in the hidden input the selector text built from it is
rejected, so `setLabel` throws, whatever the host, and it has written nothing. -/
theorem setLabel_throws_counterexample :
    ¬ ∃ (E : Host) (s : Widget), setLabel E { colorDom with input := "v1.2" } = .ok s := by
  rintro ⟨E, s, hs⟩
  have he : setLabel E { colorDom with input := "v1.2" }
      = .error { colorDom with input := "v1.2" } := rfl
  rw [he] at hs
  cases hs

/-- C8 (as the code has it): when the hidden input is empty or made of letters, digits, `_`
and `-` only, `setLabel` returns, leaves input, rows, key and button alone and renders the
label: with a non-empty input the selection label is shown, the placeholder hidden and the
remove control shown, and the text is the display name of the row with that identifier when
one row carries it, and the empty string when no row carries it; with an empty input the
placeholder is shown, the selection label is hidden with empty text and the remove control
is hidden. -/
theorem setLabel_spec (E : Host) (w : Widget) (hp : w.input = "" ∨ plainId w.input = true) :
    ∃ s, setLabel E w = .ok s
      ∧ s.input = w.input
      ∧ s.items = w.items
      ∧ s.key = w.key
      ∧ s.buttonDisabled = w.buttonDisabled
      ∧ (w.input ≠ "" →
          s.selectionVisible = true
            ∧ s.nothingSelectedVisible = false
            ∧ s.removeFilterVisible = true
            ∧ ((rowIds w.items).count w.input = 1 →
                ∀ r ∈ w.items, r.id = w.input → s.selectionText = r.name)
            ∧ (w.input ∉ rowIds w.items → s.selectionText = ""))
      ∧ (w.input = "" →
          s.nothingSelectedVisible = true
            ∧ s.selectionVisible = false
            ∧ s.selectionText = ""
            ∧ s.removeFilterVisible = false) := by
  rcases hp with he | hpl
  · refine ⟨_, setLabel_empty E w he, rfl, rfl, rfl, rfl, ?_, ?_⟩
    · intro hne
      exact absurd he hne
    · intro _
      exact ⟨rfl, rfl, rfl, rfl⟩
  · refine ⟨_, setLabel_plain E w hpl, rfl, rfl, rfl, rfl, ?_, ?_⟩
    · intro _
      refine ⟨rfl, rfl, rfl, ?_, ?_⟩
      · intro hone r hr hid
        show namesText (filterById w.items w.input) = r.name
        rw [← hid] at hone ⊢
        rw [filterById_of_count_one w.items r hr hone, namesText_singleton]
      · intro hnone
        show namesText (filterById w.items w.input) = ""
        rw [filterById_of_not_mem w.items w.input hnone]
        rfl
    · intro he
      exact absurd he (plainId_ne_empty hpl)

/-- C8 at an example: the document of the end-to-end scenario with `blue` in the hidden
input is rendered with the label `Blue`; with `green`, which no row carries, with an empty
label. -/
theorem setLabel_spec_witness :
    (∃ s, setLabel strictHost { colorDom with input := "blue" } = .ok s
        ∧ s.selectionVisible = true ∧ s.selectionText = "Blue")
      ∧ (∃ s, setLabel strictHost { colorDom with input := "green" } = .ok s
        ∧ s.selectionVisible = true ∧ s.selectionText = "")
      ∧ (∃ s, setLabel strictHost colorDom = .ok s ∧ s.nothingSelectedVisible = true) :=
  have hb := setLabel_spec strictHost { colorDom with input := "blue" } (Or.inr (by decide))
  have hg := setLabel_spec strictHost { colorDom with input := "green" } (Or.inr (by decide))
  have he := setLabel_spec strictHost colorDom (Or.inl (by decide))
  match hb, hg, he with
  | ⟨sb, b1, _, _, _, _, b6, _⟩, ⟨sg, g1, _, _, _, _, g6, _⟩, ⟨se, e1, _, _, _, _, _, e7⟩ =>
    ⟨⟨sb, b1, (b6 (by decide)).1,
        (b6 (by decide)).2.2.2.1 (by decide) ⟨"blue", "Blue", false, ""⟩ (by decide) (by decide)⟩,
     ⟨sg, g1, (g6 (by decide)).1, (g6 (by decide)).2.2.2.2 (by decide)⟩,
     ⟨se, e1, (e7 (by decide)).1⟩⟩

/-- C9 as stated fails.  The invariant is not established: constructed over a hidden input
pre-filled with `green`, which no row carries, the widget does not satisfy it.  And it is not
preserved: with two rows that carry the same identifier and nothing selected it holds, and a
click on the first row leaves the input equal to the id of two rows. -/
theorem selectionInv_counterexample :
    ¬ SelectionInv (stateOf (construct strictHost { colorDom with input := "green" }))
      ∧ ¬ (∀ (E : Host) (w : Widget), SelectionInv w →
            ∀ r ∈ w.items, SelectionInv (stateOf (itemSelected E w r))) := by
  constructor
  · unfold SelectionInv
    decide
  · intro h
    have h0 := h strictHost twinWidget (Or.inl (by decide)) ⟨"a", "One", false, ""⟩ (by decide)
    revert h0
    unfold SelectionInv
    decide

/-- C9 (as the code has it): if the hidden input is empty or is the id of exactly one row,
this is still so after `removeFilter`, after `setLabel`, after `update` for every payload,
each whether it returns or throws, and after `itemSelected` on a row of the facet whose
`data-id` is made of letters, digits, `_` and `-` only and is shared by no other row; after
`itemSelected` on any row of the facet with such a `data-id`, the input is empty or the id
of at least one row. -/
theorem selectionInv_preserved (E : Host) (w : Widget) (h : SelectionInv w) :
    SelectionInv (stateOf (removeFilter E w))
      ∧ SelectionInv (stateOf (setLabel E w))
      ∧ (∀ data : Payload, SelectionInv (updateState E w data))
      ∧ (∀ r ∈ w.items, plainId r.id = true → (rowIds w.items).count r.id = 1 →
          SelectionInv (stateOf (itemSelected E w r)))
      ∧ (∀ r ∈ w.items, plainId r.id = true →
          SelectionKnown (stateOf (itemSelected E w r))) := by
  refine ⟨?_, ?_, ?_, ?_, ?_⟩
  · left
    rw [removeFilter_eq]
    rfl
  · unfold SelectionInv
    rw [(setLabel_frame E w).1, (setLabel_frame E w).2.1]
    exact h
  · intro data
    have hf := updateState_frame E w data
    unfold SelectionInv
    rw [hf.2.1, rowIds_eq, hf.2.2.2, ← rowIds_eq]
    exact h
  · intro r _ hj hone
    have hf := setLabel_frame E { w with input := storedValue E r.id,
                                         changeEvents := w.changeEvents + 1 }
    unfold SelectionInv itemSelected
    simp only []
    rw [hf.1, hf.2.1]
    rcases storedValue_of_plain E hj with h0 | h1
    · left
      exact h0
    · right
      show (rowIds w.items).count (storedValue E r.id) = 1
      rw [h1]
      exact hone
  · intro r hr hj
    have hf := setLabel_frame E { w with input := storedValue E r.id,
                                         changeEvents := w.changeEvents + 1 }
    unfold SelectionKnown itemSelected
    simp only []
    rw [hf.1, hf.2.1]
    rcases storedValue_of_plain E hj with h0 | h1
    · left
      exact h0
    · right
      exact ⟨r, hr, h1.symm⟩

/-- C9 at the example document with Red selected: every operation keeps the invariant. -/
theorem selectionInv_preserved_witness :
    SelectionInv (stateOf (itemSelected strictHost colorDom ⟨"red", "Red", false, ""⟩))
      ∧ SelectionInv (stateOf (removeFilter strictHost
          (stateOf (itemSelected strictHost colorDom ⟨"red", "Red", false, ""⟩))))
      ∧ SelectionInv (updateState strictHost
          (stateOf (itemSelected strictHost colorDom ⟨"red", "Red", false, ""⟩))
          (payloadFor "color" [("blue", 3), ("v1.2", 1)]))
      ∧ SelectionInv (stateOf (itemSelected strictHost
          (stateOf (itemSelected strictHost colorDom ⟨"red", "Red", false, ""⟩))
          ⟨"blue", "Blue", false, ""⟩)) :=
  have h0 : SelectionInv
      (stateOf (itemSelected strictHost colorDom ⟨"red", "Red", false, ""⟩)) :=
    Or.inr (by decide)
  have h := selectionInv_preserved strictHost
    (stateOf (itemSelected strictHost colorDom ⟨"red", "Red", false, ""⟩)) h0
  ⟨h0, h.1, h.2.2.1 _, h.2.2.2.1 ⟨"blue", "Blue", false, ""⟩ (by decide) (by decide) (by decide)⟩

/-- C10 as stated fails: a payload that lists the empty identifier makes `update` throw
when it reaches that entry, whatever the host, so there is no state that `update` returns
once, let alone twice. -/
theorem update_throws_counterexample :
    ¬ ∃ (E : Host) (s : Widget),
        update E abcWidget (payloadFor "letter" [("A", 5), ("", 1)]) = .ok s
        ∧ update E s (payloadFor "letter" [("A", 5), ("", 1)]) = .ok s := by
  rintro ⟨E, s, hs, _⟩
  have he : update E abcWidget (payloadFor "letter" [("A", 5), ("", 1)])
      = .error { abcWidget with
                 items := [⟨"A", "Alpha", false, " (5)"⟩, ⟨"B", "Beta", true, ""⟩,
                           ⟨"C", "Gamma", true, ""⟩] } := rfl
  rw [he] at hs
  cases hs

/-- C10 (as the code has it): for a payload that has the facet's key and lists only
identifiers made of letters, digits, `_` and `-`, the same identifier more than once
included, `update` returns, and a second `update` with the same payload returns the very
same state. -/
theorem update_idempotent (E : Host) (w : Widget) (data : Payload) (b : List BucketEntry)
    (hb : data.facets w.key = some b) (hp : plainBuckets b) :
    ∃ s, update E w data = .ok s ∧ update E s data = .ok s := by
  refine ⟨afterUpdate w b, update_of_some E w data b hb hp, ?_⟩
  have hb2 : data.facets (afterUpdate w b).key = some b := hb
  rw [update_of_some E (afterUpdate w b) data b hb2 hp, afterUpdate_idem]

/-- C10 at a payload that lists identifier A twice. -/
theorem update_idempotent_witness :
    (payloadFor "letter" [("A", 5), ("B", 1), ("A", 7)]).facets abcWidget.key
        = some [("A", 5), ("B", 1), ("A", 7)]
      ∧ ∃ s, update strictHost abcWidget (payloadFor "letter" [("A", 5), ("B", 1), ("A", 7)])
            = .ok s
          ∧ update strictHost s (payloadFor "letter" [("A", 5), ("B", 1), ("A", 7)]) = .ok s :=
  ⟨by rfl, update_idempotent strictHost abcWidget
    (payloadFor "letter" [("A", 5), ("B", 1), ("A", 7)])
    [("A", 5), ("B", 1), ("A", 7)] (by rfl) (by unfold plainBuckets; decide)⟩

end FacettedSearchFilterDropdown
